import Mathlib

/-!
Shallow embedding of the request-forwarding engine of `doh-proxy`
(`src/dohproxy.go`).

The outside world is abstracted as an environment mapping each upstream
URL to the behaviour a single HTTP attempt against it exhibits, and the
DNS codec is abstracted as explicit pack/unpack oracles.  Everything the
handler observably does — the HTTP requests it issues and their order,
the log lines it emits, the answer (if any) it writes back to the DNS
client, and whether it hits the nil-request crash — is collected in a
`HandlerResult` so that each specification claim becomes a statement
about `HandleDNSRequest`.
-/

set_option autoImplicit false

namespace DohProxy

/-- Wire-format DNS message bytes. -/
abbrev Bytes := List Nat

/-- Behaviour of a single attempt against one upstream URL.

`buildFail` models `http.NewRequest` (dohproxy.go:69) returning a nil
request together with an error; `doError` models `p.client.Do`
(dohproxy.go:73) returning a non-nil error (and hence a nil response);
`httpResponse status bodyRead` models a completed HTTP exchange with the
given status code, where `bodyRead = none` models `io.ReadAll`
(dohproxy.go:93) failing on the response body and `bodyRead = some b`
models the body reading as the bytes `b`. -/
inductive UpstreamBehavior where
  | buildFail : UpstreamBehavior
  | doError : UpstreamBehavior
  | httpResponse : Nat → Option Bytes → UpstreamBehavior
deriving DecidableEq

/-- The outgoing HTTP request built at dohproxy.go:69-71: method and URL
from `http.NewRequest`, body from the packed query, and the two headers
set by `req.Header.Set`. -/
structure HttpRequest where
  method : String
  url : String
  body : Bytes
  contentType : String
  accept : String
deriving DecidableEq

/-- The request the loop body builds for one upstream (dohproxy.go:69-71). -/
def mkDoHRequest (upstream : String) (dnsQuery : Bytes) : HttpRequest :=
  { method := "POST", url := upstream, body := dnsQuery,
    contentType := "application/dns-message",
    accept := "application/dns-message" }

/-- State when the upstream loop of dohproxy.go:68-78 finishes (or
crashes): the requests handed to `p.client.Do` in order, the Go
variables `response` (nil modelled as `none`) and `currentUpstream`
(unset modelled as `""`, exactly the sentinel the Go code tests), and
whether the loop crashed on the nil request of a failed
`http.NewRequest`. -/
structure LoopState where
  requests : List HttpRequest
  response : Option (Nat × Option Bytes)
  current : String
  crashed : Bool
deriving DecidableEq

/-- The upstream loop of dohproxy.go:68-78.  `resp` threads the Go
variable `response` declared before the loop (initially nil).  For each
upstream: a failed `http.NewRequest` leaves a nil `req`, and
`req.Header.Set` on it crashes the handler; a `client.Do` error leaves
`response` nil and moves on; a completed exchange stores the response
and, exactly when the status is 200 (`http.StatusOK`), records the
upstream in `currentUpstream` and breaks. -/
def runLoop (env : String → UpstreamBehavior) (dnsQuery : Bytes) :
    Option (Nat × Option Bytes) → List String → LoopState
  | resp, [] =>
      { requests := [], response := resp, current := "", crashed := false }
  | resp, upstream :: rest =>
      match env upstream with
      | .buildFail =>
          { requests := [], response := resp, current := "", crashed := true }
      | .doError =>
          let s := runLoop env dnsQuery none rest
          { s with requests := mkDoHRequest upstream dnsQuery :: s.requests }
      | .httpResponse status body =>
          if status = 200 then
            { requests := [mkDoHRequest upstream dnsQuery],
              response := some (status, body), current := upstream,
              crashed := false }
          else
            let s := runLoop env dnsQuery (some (status, body)) rest
            { s with requests := mkDoHRequest upstream dnsQuery :: s.requests }

/-- One attempt counts as failed (so the loop moves past it) when
`client.Do` errored or the status was not 200; a `buildFail` is not a
failed attempt — it crashes the handler instead. -/
def attemptFails : UpstreamBehavior → Bool
  | .buildFail => false
  | .doError => true
  | .httpResponse status _ => status != 200

/-- What the handler writes back to the DNS client: nothing (a bare
`return`), `dns.HandleFailed` (a generic failure answer), or
`w.WriteMsg` of the unpacked upstream response. -/
inductive ClientAnswer where
  | silent : ClientAnswer
  | failed : ClientAnswer
  | msg : Bytes → ClientAnswer
deriving DecidableEq

/-- The log line of dohproxy.go:60 (`%v` detail elided). -/
def packErrLog : String := "Failed to pack DNS request"

/-- The log line of dohproxy.go:81. -/
def noUpstreamLog : String := "Failed to query any upstream"

/-- The log line of dohproxy.go:86 (the `response == nil` branch). -/
def deadBranchLog : String := "All upstream DoH servers failed"

/-- The log line of dohproxy.go:95 (`%v` detail elided). -/
def readErrLog : String := "Failed to read response from upstream"

/-- The log line of dohproxy.go:103 (`%v` detail elided). -/
def unpackErrLog : String := "Failed to unpack DNS response"

/-- The log line of dohproxy.go:108. -/
def successLog (upstream : String) : String :=
  "Successfully proxied request through " ++ upstream

/-- Everything one call of `HandleDNSRequest` observably does. -/
structure HandlerResult where
  answer : ClientAnswer
  logs : List String
  requests : List HttpRequest
  crashed : Bool
  served : String
  deadBranch : Bool
deriving DecidableEq

/-- dohproxy.go:79-111: what `HandleDNSRequest` does after the upstream
loop, given the loop's final state.  The branch order is exactly the
source's: the `currentUpstream == ""` check (silent return, log gated by
`logRequests`) comes before the `response == nil` check (which logs
unconditionally and writes a generic failure); then body read, unpack,
optional success log, and `WriteMsg`. -/
def afterLoop (logRequests : Bool) (unpack : Bytes → Option Bytes)
    (s : LoopState) : HandlerResult :=
  if s.crashed then
    { answer := .silent, logs := [], requests := s.requests,
      crashed := true, served := "", deadBranch := false }
  else if s.current = "" then
    { answer := .silent,
      logs := if logRequests then [noUpstreamLog] else [],
      requests := s.requests, crashed := false, served := "",
      deadBranch := false }
  else
    match s.response with
    | none =>
        { answer := .failed, logs := [deadBranchLog],
          requests := s.requests, crashed := false, served := s.current,
          deadBranch := true }
    | some (_, none) =>
        { answer := .failed, logs := [readErrLog],
          requests := s.requests, crashed := false, served := s.current,
          deadBranch := false }
    | some (_, some body) =>
        match unpack body with
        | none =>
            { answer := .failed, logs := [unpackErrLog],
              requests := s.requests, crashed := false,
              served := s.current, deadBranch := false }
        | some dnsResponse =>
            { answer := .msg dnsResponse,
              logs := if logRequests then [successLog s.current] else [],
              requests := s.requests, crashed := false,
              served := s.current, deadBranch := false }

/-- dohproxy.go:57-112.  `packResult` is the outcome of `r.Pack()`
(`none` = pack error, logged unconditionally, bare return); on success
the packed bytes are sent through the upstream loop and the epilogue. -/
def HandleDNSRequest (logRequests : Bool) (upstreamURLs : List String)
    (packResult : Option Bytes) (env : String → UpstreamBehavior)
    (unpack : Bytes → Option Bytes) : HandlerResult :=
  match packResult with
  | none =>
      { answer := .silent, logs := [packErrLog], requests := [],
        crashed := false, served := "", deadBranch := false }
  | some dnsQuery =>
      afterLoop logRequests unpack (runLoop env dnsQuery none upstreamURLs)

/-- dohproxy.go:19. -/
def TCP : Nat := 0

/-- dohproxy.go:20. -/
def UDP : Nat := 1

/-- The protocol list computed by `main` (dohproxy.go:182-193): TCP when
`-tcp`, then UDP when `-udp`, and both when neither flag was given. -/
def protocolsFor (tcpFlag udpFlag : Bool) : List Nat :=
  let ps : List Nat := []
  let ps := if tcpFlag then ps ++ [TCP] else ps
  let ps := if udpFlag then ps ++ [UDP] else ps
  if !tcpFlag && !udpFlag then [TCP, UDP] else ps

/-- The listener loops `Run` starts, in order (dohproxy.go:115-139): one
goroutine per protocol entry, via a switch that recognises only TCP and
UDP. -/
def startedLoops (protocols : List Nat) : List Nat :=
  protocols.filterMap fun proto =>
    if proto = TCP then some TCP
    else if proto = UDP then some UDP
    else none

/-- Outcome of `main`'s startup checks (dohproxy.go:176-199). -/
structure StartupResult where
  printedUsage : Bool
  exitCode : Option Nat
  forwarderURLs : Option (List String)
  loops : List Nat
deriving DecidableEq

/-- dohproxy.go:176-199: with no `-u` flag, `main` prints the flag
defaults and exits with status 1 before any listener exists; otherwise
the proxy is constructed with the given upstream list and `Run` starts
the loops for the computed protocols. -/
def mainStartup (upstreamURLs : List String) (tcpFlag udpFlag : Bool) :
    StartupResult :=
  if upstreamURLs = [] then
    { printedUsage := true, exitCode := some 1, forwarderURLs := none,
      loops := [] }
  else
    { printedUsage := false, exitCode := none,
      forwarderURLs := some upstreamURLs,
      loops := startedLoops (protocolsFor tcpFlag udpFlag) }

/-- Concrete environment used to evaluate the theorems on closed inputs:
the upstream `"b"` answers 200 with body `[2]`, every other URL fails at
`client.Do`. -/
def envW : String → UpstreamBehavior := fun s =>
  if s = "b" then .httpResponse 200 (some [2]) else .doError

/-- Concrete environment in which the upstream `"r"` answers 200 but
reading its response body fails (`io.ReadAll` errors); every other URL
fails at `client.Do`. -/
def envR : String → UpstreamBehavior := fun s =>
  if s = "r" then .httpResponse 200 none else .doError

/-! ### Behaviour of the upstream loop -/

/-- When every upstream before `u` fails its attempt and `u` answers 200,
the loop issues exactly one request per upstream of the failing segment
and then one to `u`, in configured order, stores `u`'s response, records
`u` as `currentUpstream`, and stops: nothing after `u` is contacted. -/
theorem runLoop_first_success (env : String → UpstreamBehavior) (q : Bytes)
    (u : String) (b : Option Bytes) (hu : env u = .httpResponse 200 b) :
    ∀ (pre : List String), (∀ v ∈ pre, attemptFails (env v) = true) →
    ∀ (post : List String) (resp0 : Option (Nat × Option Bytes)),
      runLoop env q resp0 (pre ++ u :: post) =
        { requests := (pre ++ [u]).map (fun v => mkDoHRequest v q),
          response := some (200, b), current := u, crashed := false } := by
  intro pre
  induction pre with
  | nil =>
      intro _ post resp0
      simp [runLoop, hu]
  | cons v pre ih =>
      intro h post resp0
      have hv : attemptFails (env v) = true := h v (by simp)
      have hpre : ∀ w ∈ pre, attemptFails (env w) = true :=
        fun w hw => h w (by simp [hw])
      cases hev : env v with
      | buildFail => rw [hev] at hv; simp [attemptFails] at hv
      | doError =>
          simp [runLoop, hev, ih hpre post none]
      | httpResponse st body =>
          rw [hev] at hv
          have hst : ¬ st = 200 := by simpa [attemptFails] using hv
          simp [runLoop, hev, hst, ih hpre post (some (st, body))]

/-- When every upstream in the list fails its attempt, the loop issues
exactly one request per upstream, in order, and finishes with
`currentUpstream` still unset and no crash. -/
theorem runLoop_all_fail (env : String → UpstreamBehavior) (q : Bytes) :
    ∀ (us : List String), (∀ v ∈ us, attemptFails (env v) = true) →
    ∀ (resp0 : Option (Nat × Option Bytes)),
      (runLoop env q resp0 us).requests =
          us.map (fun v => mkDoHRequest v q) ∧
      (runLoop env q resp0 us).current = "" ∧
      (runLoop env q resp0 us).crashed = false := by
  intro us
  induction us with
  | nil => intro _ resp0; simp [runLoop]
  | cons v rest ih =>
      intro h resp0
      have hv : attemptFails (env v) = true := h v (by simp)
      have hrest : ∀ w ∈ rest, attemptFails (env w) = true :=
        fun w hw => h w (by simp [hw])
      cases hev : env v with
      | buildFail => rw [hev] at hv; simp [attemptFails] at hv
      | doError =>
          have := ih hrest none
          simp [runLoop, hev, this.1, this.2.1, this.2.2]
      | httpResponse st body =>
          rw [hev] at hv
          have hst : ¬ st = 200 := by simpa [attemptFails] using hv
          have := ih hrest (some (st, body))
          simp [runLoop, hev, hst, this.1, this.2.1, this.2.2]

/-- Whenever the loop finishes with `currentUpstream` set, the stored
response is a completed exchange with status 200 from exactly that
upstream (in particular `response` is not nil), and the loop did not
crash. -/
theorem runLoop_current_success (env : String → UpstreamBehavior)
    (q : Bytes) :
    ∀ (us : List String) (resp0 : Option (Nat × Option Bytes)),
      (runLoop env q resp0 us).current ≠ "" →
      ∃ b, (runLoop env q resp0 us).response = some (200, b) ∧
        env (runLoop env q resp0 us).current = .httpResponse 200 b ∧
        (runLoop env q resp0 us).crashed = false := by
  intro us
  induction us with
  | nil => intro resp0 hcur; simp [runLoop] at hcur
  | cons v rest ih =>
      intro resp0 hcur
      cases hev : env v with
      | buildFail =>
          rw [runLoop] at hcur ⊢
          simp [hev] at hcur
      | doError =>
          rw [runLoop] at hcur ⊢
          simp only [hev] at hcur ⊢
          exact ih none hcur
      | httpResponse st body =>
          rw [runLoop] at hcur ⊢
          simp only [hev] at hcur ⊢
          by_cases hst : st = 200
          · subst hst
            rw [if_pos rfl]
            exact ⟨body, rfl, by simpa using hev, rfl⟩
          · simp [hst] at hcur ⊢
            exact ih (some (st, body)) hcur

/-- Every request the loop hands to `client.Do` is the POST built by
the loop body for some upstream of the configured list. -/
theorem runLoop_requests_mem (env : String → UpstreamBehavior)
    (q : Bytes) :
    ∀ (us : List String) (resp0 : Option (Nat × Option Bytes))
      (r : HttpRequest), r ∈ (runLoop env q resp0 us).requests →
      ∃ u ∈ us, r = mkDoHRequest u q := by
  intro us
  induction us with
  | nil => intro resp0 r hr; simp [runLoop] at hr
  | cons v rest ih =>
      intro resp0 r hr
      cases hev : env v with
      | buildFail =>
          rw [runLoop] at hr; simp [hev] at hr
      | doError =>
          rw [runLoop] at hr
          simp only [hev] at hr
          rcases List.mem_cons.mp hr with h | h
          · exact ⟨v, by simp, h⟩
          · obtain ⟨u, hu, he⟩ := ih none r h
            exact ⟨u, by simp [hu], he⟩
      | httpResponse st body =>
          rw [runLoop] at hr
          simp only [hev] at hr
          by_cases hst : st = 200
          · simp [hst] at hr
            exact ⟨v, by simp, hr⟩
          · simp only [if_neg hst] at hr
            rcases List.mem_cons.mp hr with h | h
            · exact ⟨v, by simp, h⟩
            · obtain ⟨u, hu, he⟩ := ih (some (st, body)) r h
              exact ⟨u, by simp [hu], he⟩

/-- When every upstream before `u` fails its attempt and building the
request for `u` itself fails, the loop crashes on the nil request: the
upstreams before `u` were each contacted once, `u` and everything after
it never were, and `currentUpstream` is still unset. -/
theorem runLoop_buildFail (env : String → UpstreamBehavior) (q : Bytes)
    (u : String) (hu : env u = .buildFail) :
    ∀ (pre : List String), (∀ v ∈ pre, attemptFails (env v) = true) →
    ∀ (post : List String) (resp0 : Option (Nat × Option Bytes)),
      (runLoop env q resp0 (pre ++ u :: post)).crashed = true ∧
      (runLoop env q resp0 (pre ++ u :: post)).requests =
          pre.map (fun v => mkDoHRequest v q) ∧
      (runLoop env q resp0 (pre ++ u :: post)).current = "" := by
  intro pre
  induction pre with
  | nil =>
      intro _ post resp0
      simp [runLoop, hu]
  | cons v pre ih =>
      intro h post resp0
      have hv : attemptFails (env v) = true := h v (by simp)
      have hpre : ∀ w ∈ pre, attemptFails (env w) = true :=
        fun w hw => h w (by simp [hw])
      cases hev : env v with
      | buildFail => rw [hev] at hv; simp [attemptFails] at hv
      | doError =>
          have := ih hpre post none
          simp [runLoop, hev, this.1, this.2.1, this.2.2]
      | httpResponse st body =>
          rw [hev] at hv
          have hst : ¬ st = 200 := by simpa [attemptFails] using hv
          have := ih hpre post (some (st, body))
          simp [runLoop, hev, hst, this.1, this.2.1, this.2.2]

/-! ### Behaviour of the epilogue -/

/-- The epilogue never changes the request trace: every branch of
`afterLoop` reports exactly the requests the loop issued. -/
theorem afterLoop_requests (lg : Bool) (unpack : Bytes → Option Bytes)
    (s : LoopState) : (afterLoop lg unpack s).requests = s.requests := by
  by_cases h1 : s.crashed
  · simp [afterLoop, h1]
  · by_cases h2 : s.current = ""
    · simp [afterLoop, h1, h2]
    · rcases hresp : s.response with _ | ⟨st, b⟩
      · simp [afterLoop, h1, h2, hresp]
      · rcases b with _ | body
        · simp [afterLoop, h1, h2, hresp]
        · rcases hb : unpack body with _ | m <;>
            simp [afterLoop, h1, h2, hresp, hb]

/-- The epilogue either reports no serving upstream or reports exactly
the loop's `currentUpstream`, which is then non-empty. -/
theorem afterLoop_served_cases (lg : Bool) (unpack : Bytes → Option Bytes)
    (s : LoopState) :
    (afterLoop lg unpack s).served = "" ∨
    ((afterLoop lg unpack s).served = s.current ∧ s.current ≠ "") := by
  by_cases h1 : s.crashed
  · left; simp [afterLoop, h1]
  · by_cases h2 : s.current = ""
    · left; simp [afterLoop, h1, h2]
    · right
      refine ⟨?_, h2⟩
      rcases hresp : s.response with _ | ⟨st, b⟩
      · simp [afterLoop, h1, h2, hresp]
      · rcases b with _ | body
        · simp [afterLoop, h1, h2, hresp]
        · rcases hb : unpack body with _ | m <;>
            simp [afterLoop, h1, h2, hresp, hb]

/-- When the loop crashed on a nil request, the handler dies before the
epilogue: nothing is logged, nothing is answered. -/
theorem afterLoop_crashed (lg : Bool) (unpack : Bytes → Option Bytes)
    (s : LoopState) (h : s.crashed = true) :
    (afterLoop lg unpack s).crashed = true ∧
    (afterLoop lg unpack s).requests = s.requests ∧
    (afterLoop lg unpack s).answer = .silent ∧
    (afterLoop lg unpack s).served = "" := by
  simp [afterLoop, h]

/-- dohproxy.go:79-84: when the loop finishes with no accepted upstream,
the handler returns silently — no answer to the client — and the failure
line appears only when `logRequests` is set. -/
theorem afterLoop_no_current (lg : Bool) (unpack : Bytes → Option Bytes)
    (s : LoopState) (h1 : s.crashed = false) (h2 : s.current = "") :
    (afterLoop lg unpack s).answer = .silent ∧
    (afterLoop lg unpack s).logs = (if lg then [noUpstreamLog] else []) := by
  simp [afterLoop, h1, h2]

/-- On an accepted response whose body unpacks, the handler answers the
unpacked message and logs exactly one success line naming the serving
upstream — only when `logRequests` is set. -/
theorem afterLoop_unpack_ok (lg : Bool) (unpack : Bytes → Option Bytes)
    (R : List HttpRequest) (body m : Bytes) (u : String) (hne : u ≠ "")
    (hun : unpack body = some m) :
    (afterLoop lg unpack
        { requests := R, response := some (200, some body), current := u,
          crashed := false }).logs = (if lg then [successLog u] else []) ∧
    (afterLoop lg unpack
        { requests := R, response := some (200, some body), current := u,
          crashed := false }).answer = .msg m := by
  simp [afterLoop, hne, hun]

/-- On an accepted response whose body does not unpack, the handler
writes a generic failure answer and logs the unpack error regardless of
`logRequests`. -/
theorem afterLoop_unpack_fail (lg : Bool) (R : List HttpRequest)
    (body : Bytes) (u : String) (hne : u ≠ "") :
    (afterLoop lg (fun _ => none)
        { requests := R, response := some (200, some body), current := u,
          crashed := false }).logs = [unpackErrLog] ∧
    (afterLoop lg (fun _ => none)
        { requests := R, response := some (200, some body), current := u,
          crashed := false }).answer = .failed := by
  simp [afterLoop, hne]

/-- On an accepted response whose body read fails, the handler writes a
generic failure answer and logs the read error regardless of
`logRequests` (dohproxy.go:93-98 is not gated by the flag). -/
theorem afterLoop_read_fail (lg : Bool) (unpack : Bytes → Option Bytes)
    (R : List HttpRequest) (u : String) (hne : u ≠ "") :
    (afterLoop lg unpack
        { requests := R, response := some (200, none), current := u,
          crashed := false }).logs = [readErrLog] ∧
    (afterLoop lg unpack
        { requests := R, response := some (200, none), current := u,
          crashed := false }).answer = .failed := by
  simp [afterLoop, hne]

/-- Fields of the epilogue on an accepted response, whatever the body
read and unpack outcomes are. -/
theorem afterLoop_accepted_fields (lg : Bool)
    (unpack : Bytes → Option Bytes) (R : List HttpRequest)
    (b : Option Bytes) (u : String) (hne : u ≠ "") :
    (afterLoop lg unpack
        { requests := R, response := some (200, b), current := u,
          crashed := false }).requests = R ∧
    (afterLoop lg unpack
        { requests := R, response := some (200, b), current := u,
          crashed := false }).served = u ∧
    (afterLoop lg unpack
        { requests := R, response := some (200, b), current := u,
          crashed := false }).crashed = false := by
  rcases b with _ | body
  · simp [afterLoop, hne]
  · rcases hb : unpack body with _ | m <;> simp [afterLoop, hne, hb]

/-- The `response == nil` branch is taken in no run of the epilogue
whose loop state satisfies the invariant established by
`runLoop_current_success`. -/
theorem afterLoop_deadBranch (lg : Bool) (unpack : Bytes → Option Bytes)
    (s : LoopState)
    (hs : s.current ≠ "" → ∃ b, s.response = some (200, b)) :
    (afterLoop lg unpack s).deadBranch = false := by
  by_cases h1 : s.crashed
  · simp [afterLoop, h1]
  · by_cases h2 : s.current = ""
    · simp [afterLoop, h1, h2]
    · obtain ⟨b, hb⟩ := hs h2
      rcases b with _ | body
      · simp [afterLoop, h1, h2, hb]
      · rcases hu : unpack body with _ | m <;>
          simp [afterLoop, h1, h2, hb, hu]

/-! ### The claims -/

/-- Claim C1: for every non-empty upstream URL list, when upstream `u`
is the first whose HTTP call returns status 200 with no error,
`HandleDNSRequest` attempts each earlier upstream exactly once, in
configured order, accepts `u`'s response, and never contacts any
upstream after `u` for that request; no upstream is attempted twice:
the request trace is exactly one POST per upstream of the failing
segment followed by one POST to `u`. -/
theorem C1_first_success_failover (logRequests : Bool)
    (pre post : List String) (u : String) (q : Bytes) (b : Option Bytes)
    (env : String → UpstreamBehavior) (unpack : Bytes → Option Bytes)
    (hpre : ∀ v ∈ pre, attemptFails (env v) = true)
    (hu : env u = .httpResponse 200 b) (hne : u ≠ "") :
    (HandleDNSRequest logRequests (pre ++ u :: post) (some q) env
        unpack).requests = (pre ++ [u]).map (fun v => mkDoHRequest v q) ∧
    (HandleDNSRequest logRequests (pre ++ u :: post) (some q) env
        unpack).served = u ∧
    (HandleDNSRequest logRequests (pre ++ u :: post) (some q) env
        unpack).crashed = false := by
  have hloop := runLoop_first_success env q u b hu pre hpre post none
  have hdef : HandleDNSRequest logRequests (pre ++ u :: post) (some q) env
      unpack =
      afterLoop logRequests unpack
        (runLoop env q none (pre ++ u :: post)) := rfl
  rw [hdef, hloop]
  exact afterLoop_accepted_fields logRequests unpack _ b u hne

/-- Witness for C1 at a closed instance: with upstreams
`["a", "b", "c"]`, where `"a"` fails and `"b"` answers 200, exactly
`"a"` then `"b"` are contacted and `"b"` serves the request. -/
theorem C1_first_success_failover_witness :
    (HandleDNSRequest true (["a"] ++ "b" :: ["c"]) (some [1]) envW
        some).requests =
      (["a"] ++ ["b"]).map (fun v => mkDoHRequest v [1]) ∧
    (HandleDNSRequest true (["a"] ++ "b" :: ["c"]) (some [1]) envW
        some).served = "b" ∧
    (HandleDNSRequest true (["a"] ++ "b" :: ["c"]) (some [1]) envW
        some).crashed = false :=
  C1_first_success_failover true ["a"] ["c"] "b" [1] (some [2]) envW some
    (by decide) (by decide) (by decide)

/-- Claim C2 (code bug): with a single upstream whose `client.Do` call
errors — so every configured upstream fails — the handler returns
without writing anything to the client: the answer is the silent bare
return, not the generic DNS failure the claim promises, and the only
report is the flag-gated log line. -/
theorem C2_exhaustion_drops_client :
    (HandleDNSRequest true ["https://u1/dns-query"] (some [0])
        (fun _ => .doError) (fun _ => none)).answer = .silent ∧
    (HandleDNSRequest true ["https://u1/dns-query"] (some [0])
        (fun _ => .doError) (fun _ => none)).answer ≠ .failed ∧
    (HandleDNSRequest true ["https://u1/dns-query"] (some [0])
        (fun _ => .doError) (fun _ => none)).logs = [noUpstreamLog] := by
  decide

/-- Counterexample to claim C3: on a pack failure the handler returns
without contacting any upstream — but also without any answer to the
client, so no generic failure answer is produced. -/
theorem C3_counterexample :
    (HandleDNSRequest true ["https://u1/dns-query"] none
        (fun _ => .doError) (fun _ => none)).requests = [] ∧
    (HandleDNSRequest true ["https://u1/dns-query"] none
        (fun _ => .doError) (fun _ => none)).answer = .silent ∧
    (HandleDNSRequest true ["https://u1/dns-query"] none
        (fun _ => .doError) (fun _ => none)).answer ≠ .failed := by
  decide

/-- Claim C3 as amended: for every inbound DNS message whose packing to
wire bytes fails, `HandleDNSRequest` abandons forwarding immediately
without contacting any upstream, logs the pack error unconditionally,
and returns without sending the client any answer (no generic failure
answer, unlike the unpack `CodecError` path). -/
theorem C3_pack_failure_no_answer (logRequests : Bool)
    (us : List String) (env : String → UpstreamBehavior)
    (unpack : Bytes → Option Bytes) :
    (HandleDNSRequest logRequests us none env unpack).requests = [] ∧
    (HandleDNSRequest logRequests us none env unpack).answer = .silent ∧
    (HandleDNSRequest logRequests us none env unpack).logs =
      [packErrLog] :=
  ⟨rfl, rfl, rfl⟩

/-- Claim C4 (code bug): an accepted upstream (HTTP 200, no error) whose
body does not unpack yields `dns.HandleFailed` — a generic failure
answer — while the all-upstreams-failed run yields no answer at all, so
the two cases are not handled identically as the claim (and the spec's
intended consistent policy) requires. -/
theorem C4_unpack_failure_differs_from_exhaustion :
    (HandleDNSRequest false ["https://u1/dns-query"] (some [0])
        (fun _ => .httpResponse 200 (some [7]))
        (fun _ => none)).answer = .failed ∧
    (HandleDNSRequest false ["https://u1/dns-query"] (some [0])
        (fun _ => .doError) (fun _ => none)).answer = .silent := by
  decide

/-- Counterexample to claim C5: with request logging disabled, an
accepted upstream whose body fails to unpack still makes the forwarding
path emit a log line — the unpack-error line is not gated by the flag,
so the path is not silent to the operator when logging is disabled. -/
theorem C5_counterexample :
    (HandleDNSRequest false ["https://u1/dns-query"] (some [0])
        (fun _ => .httpResponse 200 (some [7]))
        (fun _ => none)).logs = [unpackErrLog] ∧
    (HandleDNSRequest false ["https://u1/dns-query"] (some [0])
        (fun _ => .httpResponse 200 (some [7]))
        (fun _ => none)).logs ≠ [] := by
  decide

/-- Claim C5 as amended: when logging is enabled the handler emits
exactly one line naming the serving upstream on success and exactly one
failure line on upstream exhaustion, and when disabled those two lines
are suppressed; however the pack-error, body-read-error and
unpack-error lines are emitted regardless of the flag, so the
forwarding path is not fully silent when logging is disabled. -/
theorem C5_logging_amended (pre post us : List String) (u : String)
    (q body m : Bytes) (env : String → UpstreamBehavior)
    (unpack : Bytes → Option Bytes)
    (env2 : String → UpstreamBehavior) (pre2 post2 : List String)
    (u2 : String)
    (hpre : ∀ v ∈ pre, attemptFails (env v) = true)
    (hu : env u = .httpResponse 200 (some body))
    (hne : u ≠ "") (hun : unpack body = some m)
    (hpre2 : ∀ v ∈ pre2, attemptFails (env2 v) = true)
    (hu2 : env2 u2 = .httpResponse 200 none)
    (hne2 : u2 ≠ "") :
    (HandleDNSRequest true (pre ++ u :: post) (some q) env unpack).logs =
      [successLog u] ∧
    (HandleDNSRequest false (pre ++ u :: post) (some q) env unpack).logs =
      [] ∧
    ((∀ v ∈ us, attemptFails (env v) = true) →
      (HandleDNSRequest true us (some q) env unpack).logs =
        [noUpstreamLog] ∧
      (HandleDNSRequest false us (some q) env unpack).logs = []) ∧
    (∀ lg : Bool,
      (HandleDNSRequest lg us none env unpack).logs = [packErrLog]) ∧
    (∀ lg : Bool,
      (HandleDNSRequest lg (pre ++ u :: post) (some q) env
          (fun _ => none)).logs = [unpackErrLog]) ∧
    (∀ lg : Bool,
      (HandleDNSRequest lg (pre2 ++ u2 :: post2) (some q) env2
          unpack).logs = [readErrLog]) := by
  have hloop := runLoop_first_success env q u (some body) hu pre hpre post
    none
  refine ⟨?_, ?_, ?_, fun _ => rfl, ?_, ?_⟩
  · have hdef : HandleDNSRequest true (pre ++ u :: post) (some q) env
        unpack =
        afterLoop true unpack
          (runLoop env q none (pre ++ u :: post)) := rfl
    rw [hdef, hloop]
    simpa using (afterLoop_unpack_ok true unpack _ body m u hne hun).1
  · have hdef : HandleDNSRequest false (pre ++ u :: post) (some q) env
        unpack =
        afterLoop false unpack
          (runLoop env q none (pre ++ u :: post)) := rfl
    rw [hdef, hloop]
    simpa using (afterLoop_unpack_ok false unpack _ body m u hne hun).1
  · intro hall
    have hfail := runLoop_all_fail env q us hall none
    constructor
    · have hdef : HandleDNSRequest true us (some q) env unpack =
          afterLoop true unpack (runLoop env q none us) := rfl
      rw [hdef]
      simpa using (afterLoop_no_current true unpack _ hfail.2.2
        hfail.2.1).2
    · have hdef : HandleDNSRequest false us (some q) env unpack =
          afterLoop false unpack (runLoop env q none us) := rfl
      rw [hdef]
      simpa using (afterLoop_no_current false unpack _ hfail.2.2
        hfail.2.1).2
  · intro lg
    have hdef : HandleDNSRequest lg (pre ++ u :: post) (some q) env
        (fun _ => none) =
        afterLoop lg (fun _ => none)
          (runLoop env q none (pre ++ u :: post)) := rfl
    rw [hdef, hloop]
    exact (afterLoop_unpack_fail lg _ body u hne).1
  · intro lg
    have hloop2 := runLoop_first_success env2 q u2 none hu2 pre2 hpre2
      post2 none
    have hdef : HandleDNSRequest lg (pre2 ++ u2 :: post2) (some q) env2
        unpack =
        afterLoop lg unpack
          (runLoop env2 q none (pre2 ++ u2 :: post2)) := rfl
    rw [hdef, hloop2]
    exact (afterLoop_read_fail lg unpack _ u2 hne2).1

/-- Witness for the amended C5 at a closed instance: one success line
naming `"b"` when enabled, no line when disabled, one exhaustion line
when enabled, and the body-read-error line even when disabled. -/
theorem C5_logging_amended_witness :
    (HandleDNSRequest true (["a"] ++ "b" :: []) (some [1]) envW
        some).logs = [successLog "b"] ∧
    (HandleDNSRequest false (["a"] ++ "b" :: []) (some [1]) envW
        some).logs = [] ∧
    (HandleDNSRequest true ["a"] (some [1]) envW some).logs =
      [noUpstreamLog] ∧
    (HandleDNSRequest false (["a"] ++ "r" :: []) (some [1]) envR
        some).logs = [readErrLog] :=
  have h := C5_logging_amended ["a"] [] ["a"] "b" [1] [2] [2] envW some
    envR ["a"] [] "r" (by decide) (by decide) (by decide) rfl
    (by decide) (by decide) (by decide)
  ⟨h.1, h.2.1, (h.2.2.1 (by decide)).1, h.2.2.2.2.2 false⟩

/-- Claim C6: every request handed to the HTTP client is a POST to one
of the configured URLs whose body is the packed DNS query and whose
Content-Type and Accept headers are both `application/dns-message`; and
an upstream is accepted (recorded as serving) only when its HTTP call
completed without error with status exactly 200. -/
theorem C6_wire_format (lg : Bool) (us : List String) (q : Bytes)
    (env : String → UpstreamBehavior) (unpack : Bytes → Option Bytes)
    (req : HttpRequest)
    (hreq : req ∈ (HandleDNSRequest lg us (some q) env unpack).requests) :
    req.method = "POST" ∧ req.url ∈ us ∧ req.body = q ∧
    req.contentType = "application/dns-message" ∧
    req.accept = "application/dns-message" ∧
    ((HandleDNSRequest lg us (some q) env unpack).served ≠ "" →
      ∃ b, env (HandleDNSRequest lg us (some q) env unpack).served =
        .httpResponse 200 b) := by
  have hreq2 : req ∈ (afterLoop lg unpack (runLoop env q none
      us)).requests := hreq
  rw [afterLoop_requests] at hreq2
  obtain ⟨v, hv, he⟩ := runLoop_requests_mem env q us none req hreq2
  subst he
  refine ⟨rfl, hv, rfl, rfl, rfl, ?_⟩
  intro hne
  have hserved : (HandleDNSRequest lg us (some q) env unpack).served =
      (afterLoop lg unpack (runLoop env q none us)).served := rfl
  rcases afterLoop_served_cases lg unpack (runLoop env q none us) with
    h | ⟨he2, hcur⟩
  · rw [hserved, h] at hne
    exact absurd rfl hne
  · obtain ⟨b, _, henv, _⟩ := runLoop_current_success env q us none hcur
    exact ⟨b, by rw [hserved, he2]; exact henv⟩

/-- Witness for C6 at a closed instance: the request sent to the failing
upstream `"a"` has the required method, URL, body and headers, and the
serving upstream `"b"` answered 200. -/
theorem C6_wire_format_witness :
    (mkDoHRequest "a" [1]).method = "POST" ∧
    (mkDoHRequest "a" [1]).url ∈ ["a", "b"] ∧
    (mkDoHRequest "a" [1]).body = [1] ∧
    (mkDoHRequest "a" [1]).contentType = "application/dns-message" ∧
    (mkDoHRequest "a" [1]).accept = "application/dns-message" ∧
    ((HandleDNSRequest true ["a", "b"] (some [1]) envW some).served ≠ "" →
      ∃ b, envW (HandleDNSRequest true ["a", "b"] (some [1]) envW
          some).served = .httpResponse 200 b) :=
  C6_wire_format true ["a", "b"] [1] envW some (mkDoHRequest "a" [1])
    (by decide)

/-- Claim C7: with neither `-tcp` nor `-udp` the protocol list resolves
to both TCP and UDP (and is never empty for any flag combination); with
only `-udp` no TCP listener loop is started, and with only `-tcp` no UDP
listener loop is started. -/
theorem C7_protocol_selection :
    (∀ tcpFlag udpFlag : Bool, protocolsFor tcpFlag udpFlag ≠ []) ∧
    startedLoops (protocolsFor false false) = [TCP, UDP] ∧
    TCP ∉ startedLoops (protocolsFor false true) ∧
    UDP ∉ startedLoops (protocolsFor true false) := by
  decide

/-- Claim C8: with no upstream URL configured, startup prints the flag
defaults and exits with status 1 — a non-zero code — before any listener
loop exists; consequently whenever the proxy actually runs, its upstream
list is non-empty. -/
theorem C8_upstreams_required (urls : List String)
    (tcpFlag udpFlag : Bool) :
    (urls = [] →
      mainStartup urls tcpFlag udpFlag =
        { printedUsage := true, exitCode := some 1, forwarderURLs := none,
          loops := [] }) ∧
    (∀ c, (mainStartup urls tcpFlag udpFlag).exitCode = some c →
      c ≠ 0) ∧
    (∀ us, (mainStartup urls tcpFlag udpFlag).forwarderURLs = some us →
      us ≠ []) := by
  refine ⟨fun h => by simp [mainStartup, h], ?_, ?_⟩
  · intro c hc
    by_cases h : urls = []
    · have he : (mainStartup urls tcpFlag udpFlag).exitCode = some 1 :=
        by simp [mainStartup, h]
      rw [he] at hc
      injection hc with h1
      omega
    · have he : (mainStartup urls tcpFlag udpFlag).exitCode = none := by
        simp [mainStartup, h]
      rw [he] at hc
      cases hc
  · intro us hus
    by_cases h : urls = []
    · have he : (mainStartup urls tcpFlag udpFlag).forwarderURLs =
          none := by simp [mainStartup, h]
      rw [he] at hus
      cases hus
    · have he : (mainStartup urls tcpFlag udpFlag).forwarderURLs =
          some urls := by simp [mainStartup, h]
      rw [he] at hus
      injection hus with h1
      exact h1 ▸ h

/-- Witness for C8 at closed instances: the empty configuration exits
with usage printed, and a one-element configuration reaches the
forwarder with a non-empty list. -/
theorem C8_upstreams_required_witness :
    mainStartup [] false false =
      { printedUsage := true, exitCode := some 1, forwarderURLs := none,
        loops := [] } ∧
    (["https://u1/dns-query"] : List String) ≠ [] :=
  ⟨(C8_upstreams_required [] false false).1 rfl,
   (C8_upstreams_required ["https://u1/dns-query"] false false).2.2
     ["https://u1/dns-query"] (by decide)⟩

/-- Claim C9: whenever the upstream loop exits with `currentUpstream`
non-empty the stored HTTP response is non-nil, so the `response == nil`
branch of dohproxy.go:85-89 — the only exhaustion path that logs the
all-failed line and writes a generic failure answer — is unreachable,
and total upstream exhaustion always takes the earlier silent-return
path that sends the client nothing. -/
theorem C9_dead_branch_unreachable (lg : Bool) (us : List String)
    (packResult : Option Bytes) (q : Bytes)
    (env : String → UpstreamBehavior) (unpack : Bytes → Option Bytes)
    (resp0 : Option (Nat × Option Bytes)) :
    ((runLoop env q resp0 us).current ≠ "" →
      (runLoop env q resp0 us).response ≠ none) ∧
    (HandleDNSRequest lg us packResult env unpack).deadBranch = false ∧
    ((∀ v ∈ us, attemptFails (env v) = true) →
      (HandleDNSRequest lg us (some q) env unpack).answer = .silent) := by
  refine ⟨?_, ?_, ?_⟩
  · intro hcur
    obtain ⟨b, hb, _, _⟩ := runLoop_current_success env q us resp0 hcur
    rw [hb]
    simp
  · cases packResult with
    | none => rfl
    | some q2 =>
        have hdef : HandleDNSRequest lg us (some q2) env unpack =
            afterLoop lg unpack (runLoop env q2 none us) := rfl
        rw [hdef]
        apply afterLoop_deadBranch
        intro hcur
        obtain ⟨b, hb, _, _⟩ := runLoop_current_success env q2 us none
          hcur
        exact ⟨b, hb⟩
  · intro hall
    have hfail := runLoop_all_fail env q us hall none
    have hdef : HandleDNSRequest lg us (some q) env unpack =
        afterLoop lg unpack (runLoop env q none us) := rfl
    rw [hdef]
    exact (afterLoop_no_current lg unpack _ hfail.2.2 hfail.2.1).1

/-- Witness for C9 at a closed instance: with the single upstream
failing, the client is sent nothing. -/
theorem C9_dead_branch_unreachable_witness :
    (HandleDNSRequest true ["a"] (some [1]) (fun _ => .doError)
        (fun _ => none)).answer = .silent :=
  (C9_dead_branch_unreachable true ["a"] (some [1]) [1]
      (fun _ => .doError) (fun _ => none) none).2.2 (by decide)

/-- Counterexample to claim C10: when `http.NewRequest` fails for the
only configured upstream, the handler crashes with zero requests ever
handed to the HTTP client — the nil request is dereferenced at
`req.Header.Set`, so the HTTP client is never invoked with it. -/
theorem C10_counterexample :
    (HandleDNSRequest true ["://bad"] (some [0]) (fun _ => .buildFail)
        (fun _ => none)).crashed = true ∧
    (HandleDNSRequest true ["://bad"] (some [0]) (fun _ => .buildFail)
        (fun _ => none)).requests = [] := by
  decide

/-- Claim C10 as amended: for every upstream URL for which HTTP request
construction fails, `HandleDNSRequest` discards the construction error
and crashes on a nil-pointer dereference when setting headers on the nil
request — before the HTTP client is invoked for that upstream — instead
of treating that upstream as failed and advancing to the next one in the
list: only the upstreams before it are ever contacted and no answer
reaches the client. -/
theorem C10_buildFail_crashes (lg : Bool) (pre post : List String)
    (u : String) (q : Bytes) (env : String → UpstreamBehavior)
    (unpack : Bytes → Option Bytes)
    (hpre : ∀ v ∈ pre, attemptFails (env v) = true)
    (hu : env u = .buildFail) :
    (HandleDNSRequest lg (pre ++ u :: post) (some q) env
        unpack).crashed = true ∧
    (HandleDNSRequest lg (pre ++ u :: post) (some q) env
        unpack).requests = pre.map (fun v => mkDoHRequest v q) ∧
    (HandleDNSRequest lg (pre ++ u :: post) (some q) env
        unpack).answer = .silent ∧
    (HandleDNSRequest lg (pre ++ u :: post) (some q) env
        unpack).served = "" := by
  have hloop := runLoop_buildFail env q u hu pre hpre post none
  have hdef : HandleDNSRequest lg (pre ++ u :: post) (some q) env
      unpack =
      afterLoop lg unpack (runLoop env q none (pre ++ u :: post)) := rfl
  rw [hdef]
  have hc := afterLoop_crashed lg unpack
    (runLoop env q none (pre ++ u :: post)) hloop.1
  exact ⟨hc.1, by rw [hc.2.1, hloop.2.1], hc.2.2.1, hc.2.2.2⟩

/-- Witness for the amended C10 at a closed instance. -/
theorem C10_buildFail_crashes_witness :
    (HandleDNSRequest true (([] : List String) ++ "x" :: []) (some [1])
        (fun _ => .buildFail) (fun _ => none)).crashed = true ∧
    (HandleDNSRequest true (([] : List String) ++ "x" :: []) (some [1])
        (fun _ => .buildFail) (fun _ => none)).requests =
      ([] : List String).map (fun v => mkDoHRequest v [1]) ∧
    (HandleDNSRequest true (([] : List String) ++ "x" :: []) (some [1])
        (fun _ => .buildFail) (fun _ => none)).answer = .silent ∧
    (HandleDNSRequest true (([] : List String) ++ "x" :: []) (some [1])
        (fun _ => .buildFail) (fun _ => none)).served = "" :=
  C10_buildFail_crashes true [] [] "x" [1] (fun _ => .buildFail)
    (fun _ => none) (by decide) rfl

end DohProxy
